import Mathlib

/-!
Verification of the django-orghierarchy repository against its
natural-language specification.  The definitions below are a shallow
embedding of the Python source (src/django_orghierarchy/models.py and
src/django_orghierarchy/importers.py): JSON payloads become an inductive
value type, Django rows become structures, the importer's mutable
per-run caches become an explicit state record threaded through every
function, and Python exceptions become an error type in Except.
External libraries (the regex engine, HTTP, URL validation) are
parameters of the embedding.
-/

/-- JSON-ish Python values handled by the importer: the payloads it reads
are parsed JSON, so null, booleans, numbers, strings, arrays and
objects. -/
inductive JValue where
  | jnull
  | jbool (b : Bool)
  | jnum (n : Int)
  | jstr (s : String)
  | jlist (xs : List JValue)
  | jdict (kvs : List (String × JValue))

mutual

def JValue.beq : JValue → JValue → Bool
  | .jnull, .jnull => true
  | .jbool a, .jbool b => a == b
  | .jnum a, .jnum b => a == b
  | .jstr a, .jstr b => a == b
  | .jlist xs, .jlist ys => JValue.beqList xs ys
  | .jdict xs, .jdict ys => JValue.beqKV xs ys
  | _, _ => false

def JValue.beqList : List JValue → List JValue → Bool
  | [], [] => true
  | x :: xs, y :: ys => JValue.beq x y && JValue.beqList xs ys
  | _, _ => false

def JValue.beqKV : List (String × JValue) → List (String × JValue) → Bool
  | [], [] => true
  | (k1, v1) :: xs, (k2, v2) :: ys =>
    k1 == k2 && JValue.beq v1 v2 && JValue.beqKV xs ys
  | _, _ => false

end

mutual

theorem JValue.eq_of_beq : ∀ (a b : JValue), JValue.beq a b = true → a = b
  | .jnull, .jnull, _ => rfl
  | .jbool a, .jbool b, h => by
    simp only [JValue.beq, beq_iff_eq] at h
    exact h ▸ rfl
  | .jnum a, .jnum b, h => by
    simp only [JValue.beq, beq_iff_eq] at h
    exact h ▸ rfl
  | .jstr a, .jstr b, h => by
    simp only [JValue.beq, beq_iff_eq] at h
    exact h ▸ rfl
  | .jlist xs, .jlist ys, h => by
    simp only [JValue.beq] at h
    exact congrArg JValue.jlist (JValue.eqList_of_beqList xs ys h)
  | .jdict xs, .jdict ys, h => by
    simp only [JValue.beq] at h
    exact congrArg JValue.jdict (JValue.eqKV_of_beqKV xs ys h)

theorem JValue.eqList_of_beqList : ∀ (xs ys : List JValue), JValue.beqList xs ys = true → xs = ys
  | [], [], _ => rfl
  | x :: xs, y :: ys, h => by
    simp only [JValue.beqList, Bool.and_eq_true] at h
    rw [JValue.eq_of_beq x y h.1, JValue.eqList_of_beqList xs ys h.2]

theorem JValue.eqKV_of_beqKV :
    ∀ (xs ys : List (String × JValue)), JValue.beqKV xs ys = true → xs = ys
  | [], [], _ => rfl
  | (k1, v1) :: xs, (k2, v2) :: ys, h => by
    simp only [JValue.beqKV, Bool.and_eq_true, beq_iff_eq] at h
    rw [h.1.1, JValue.eq_of_beq v1 v2 h.1.2, JValue.eqKV_of_beqKV xs ys h.2]

end

mutual

theorem JValue.beq_refl : ∀ (a : JValue), JValue.beq a a = true
  | .jnull => rfl
  | .jbool a => by simp [JValue.beq]
  | .jnum a => by simp [JValue.beq]
  | .jstr a => by simp [JValue.beq]
  | .jlist xs => by simp only [JValue.beq]; exact JValue.beqList_refl xs
  | .jdict xs => by simp only [JValue.beq]; exact JValue.beqKV_refl xs

theorem JValue.beqList_refl : ∀ (xs : List JValue), JValue.beqList xs xs = true
  | [] => rfl
  | x :: xs => by
    simp only [JValue.beqList, Bool.and_eq_true]
    exact ⟨JValue.beq_refl x, JValue.beqList_refl xs⟩

theorem JValue.beqKV_refl : ∀ (xs : List (String × JValue)), JValue.beqKV xs xs = true
  | [] => rfl
  | (k, v) :: xs => by
    simp only [JValue.beqKV, Bool.and_eq_true]
    exact ⟨⟨by simp, JValue.beq_refl v⟩, JValue.beqKV_refl xs⟩

end

instance : DecidableEq JValue := fun a b =>
  if h : JValue.beq a b = true then isTrue (JValue.eq_of_beq a b h)
  else isFalse (fun he => h (he ▸ JValue.beq_refl a))

/-- Python truthiness of a value (`if not value: ...`). -/
def JValue.truthy : JValue → Bool
  | .jnull => false
  | .jbool b => b
  | .jnum n => n != 0
  | .jstr s => s != ""
  | .jlist xs => !xs.isEmpty
  | .jdict kvs => !kvs.isEmpty

/-- Python `str(value)` for the value shapes that actually reach a string
conversion in the importer (scalars); container reprs are not relied on
by any theorem. -/
def JValue.pyStr : JValue → String
  | .jnull => "None"
  | .jbool b => if b then "True" else "False"
  | .jnum n => toString n
  | .jstr s => s
  | .jlist _ => "[...]"
  | .jdict _ => "..."

/-- Association-list lookup, modelling Python `dict.get` (first binding
wins; `alset` below never produces duplicate keys). -/
def alget {κ α : Type} [DecidableEq κ] : List (κ × α) → κ → Option α
  | [], _ => none
  | (k, v) :: xs, k' => if k' = k then some v else alget xs k'

/-- Association-list update, modelling Python `d[k] = v`: an existing key
keeps its position, a new key is appended (dict insertion order). -/
def alset {κ α : Type} [DecidableEq κ] : List (κ × α) → κ → α → List (κ × α)
  | [], k, v => [(k, v)]
  | (k0, v0) :: xs, k, v =>
    if k = k0 then (k0, v) :: xs else (k0, v0) :: alset xs k v

theorem alget_alset {κ α : Type} [DecidableEq κ] (xs : List (κ × α)) (k k' : κ) (v : α) :
    alget (alset xs k v) k' = if k' = k then some v else alget xs k' := by
  induction xs with
  | nil => by_cases h : k' = k <;> simp [alset, alget, h]
  | cons hd tl ih =>
    obtain ⟨k0, v0⟩ := hd
    by_cases h0 : k = k0
    · subst h0
      by_cases h1 : k' = k <;> simp [alset, alget, h1]
    · by_cases h1 : k' = k0
      · subst h1
        have hne : ¬ k' = k := fun h => h0 h.symm
        simp [alset, alget, h0, hne]
      · simp [alset, alget, h0, h1, ih]

/-! ## models.py: DataModel.save and the Organization tree

`DataModel.save` (models.py lines 74-82) computes the primary key
`"{data_source_id}:{origin_id}"` only when `self.id` is falsy, i.e. at
the first save, and never again. -/

/-- The persisted columns of DataModel that `save` touches: `id` is the
CharField primary key (None before the first save), `data_source_id` the
nullable foreign-key column, `origin_id` a CharField. -/
structure DataModelRow where
  id : Option String
  data_source_id : Option String
  origin_id : String
  deriving DecidableEq, Repr

/-- Python `str` applied to an optional string (None prints as "None",
exactly what `"{0}:{1}".format(self.data_source_id, ...)` produces for a
null foreign key). -/
def optPyStr : Option String → String
  | none => "None"
  | some s => s

/-- The derived id `"{data_source_id}:{origin_id}"` of models.py line 77. -/
def compositeId (ds : Option String) (origin : String) : String :=
  optPyStr ds ++ ":" ++ origin

/-- Python truthiness of the `id` column (`if not self.id`). -/
def idFalsy : Option String → Bool
  | none => true
  | some s => s == ""

/-- `DataModel.save` from models.py lines 74-82: assign the derived id
when it is still unset, otherwise leave it alone. -/
def dataModelSave (r : DataModelRow) : DataModelRow :=
  if idFalsy r.id then
    { r with id := some (compositeId r.data_source_id r.origin_id) }
  else r

theorem compositeId_ne_empty (ds : Option String) (o : String) :
    compositeId ds o ≠ "" := by
  intro h
  have h1 := congrArg String.length h
  have hc : (":" : String).length = 1 := rfl
  simp [compositeId, String.length_append, hc] at h1

/-! ## models.py: sibling order of the Organization tree

Organization (models.py lines 97-133) extends MPTTModel but declares no
MPTTMeta and no `order_insertion_by`, and neither `DataModel.save` nor
anything else in the repository repositions rows among their siblings.
django-mptt without `order_insertion_by` inserts every new node as the
last child of its parent and leaves tree positions untouched when an
existing row is re-saved without moving, so sibling order is plain
row-insertion order, independent of `internal_type`. -/

/-- The Organization columns relevant to tree order: primary key,
`internal_type` ("normal" or "affiliated") and the parent foreign key.
The containing list's order is the mptt sibling order (`lft` order). -/
structure TreeRow where
  id : String
  internal_type : String
  parent : Option String
  deriving DecidableEq, Repr

def orgIds (rows : List TreeRow) : List String := rows.map TreeRow.id

/-- Saving an Organization: a new row is appended (mptt inserts as last
child when no `order_insertion_by` is configured), an existing row is
updated in place, keeping its position. -/
def treeSave (rows : List TreeRow) (o : TreeRow) : List TreeRow :=
  if (orgIds rows).contains o.id then
    rows.map (fun r => if r.id = o.id then o else r)
  else rows ++ [o]

/-- The children of parent `p`, in stored sibling order. -/
def childrenOf (rows : List TreeRow) (p : String) : List TreeRow :=
  rows.filter (fun r => r.parent = some p)

/-- Decides the spec's tree-order invariant on a sibling list of
internal types: no "normal" entry may occur before an "affiliated"
entry (every affiliated child precedes every normal child). -/
def noNormalBeforeAffiliated : List String → Bool
  | [] => true
  | t :: rest =>
    if t = "normal" then rest.all (fun x => x ≠ "affiliated") && noNormalBeforeAffiliated rest
    else noNormalBeforeAffiliated rest

/-- The internal types of the children of `p`, in sibling order. -/
def childTypes (rows : List TreeRow) (p : String) : List String :=
  (childrenOf rows p).map TreeRow.internal_type

/-- Claim C1, counterexample: nothing in the code orders affiliated
children before normal children.  Saving a parent "p", then a normal
child "n", then an affiliated child "f" (models.py save semantics, mptt
default insertion) leaves the children in insertion order [n, f], in
which the normal child precedes the affiliated child, so the claimed
invariant is false after these saves. -/
theorem c1_tree_order_counterexample :
    noNormalBeforeAffiliated
      (childTypes
        (treeSave
          (treeSave
            (treeSave [] { id := "p", internal_type := "normal", parent := none })
            { id := "n", internal_type := "normal", parent := some "p" })
          { id := "f", internal_type := "affiliated", parent := some "p" })
        "p") = false := by decide

/-- Claim C1, amended: saves never reorder siblings.  A save of a new
row appends it after all existing rows regardless of `internal_type`, a
save of an existing row (in particular one whose `internal_type` was
changed) keeps every row's position; concretely, adding a normal child
"n" and then an affiliated child "f" under "p" yields sibling order
[n, f], and flipping "f" to normal and re-saving still yields [n, f]. -/
theorem c1_sibling_order_is_insertion_order (rows : List TreeRow) (o : TreeRow) :
    (orgIds (treeSave rows o) =
      if (orgIds rows).contains o.id then orgIds rows else orgIds rows ++ [o.id]) ∧
    ((childrenOf
        (treeSave
          (treeSave
            (treeSave [] { id := "p", internal_type := "normal", parent := none })
            { id := "n", internal_type := "normal", parent := some "p" })
          { id := "f", internal_type := "affiliated", parent := some "p" })
        "p").map TreeRow.id = ["n", "f"]) ∧
    ((childrenOf
        (treeSave
          (treeSave
            (treeSave
              (treeSave [] { id := "p", internal_type := "normal", parent := none })
              { id := "n", internal_type := "normal", parent := some "p" })
            { id := "f", internal_type := "affiliated", parent := some "p" })
          { id := "f", internal_type := "normal", parent := some "p" })
        "p").map TreeRow.id = ["n", "f"]) := by
  refine ⟨?_, by decide, by decide⟩
  unfold treeSave
  by_cases h : (orgIds rows).contains o.id
  · simp only [h, if_true]
    unfold orgIds
    rw [List.map_map]
    apply List.map_congr_left
    intro a _
    by_cases hc : a.id = o.id
    · simp [hc]
    · simp [hc]
  · simp only [h, Bool.false_eq_true, if_false]
    simp [orgIds]

/-- Claim C2: the derived id is computed exactly once, at the first save,
as `"{data_source_id}:{origin_id}"`; every later save leaves it
unchanged, even if `origin_id` and `data_source` have been modified in
the meantime (first conjunct: first save of a fresh row; second
conjunct: save after modifying both constituent fields; third conjunct:
any row with a non-empty id keeps it across a save). -/
theorem c2_derived_id_immutable (ds ds' : Option String) (o o' : String) :
    ((dataModelSave { id := none, data_source_id := ds, origin_id := o }).id
        = some (compositeId ds o)) ∧
    ((dataModelSave
        { id := some (compositeId ds o), data_source_id := ds', origin_id := o' }).id
        = some (compositeId ds o)) ∧
    (∀ r : DataModelRow, ∀ i : String, r.id = some i → i ≠ "" →
      (dataModelSave r).id = some i) := by
  refine ⟨rfl, ?_, ?_⟩
  · have hne := compositeId_ne_empty ds o
    simp [dataModelSave, idFalsy, hne]
  · intro r i hid hne
    simp [dataModelSave, idFalsy, hid, hne]

/-- Witness for C2 at a concrete input: a row saved with data source
"data-source" and origin "ABC123" gets id "data-source:ABC123", and a
row whose id is already "data-source:ABC123" keeps it when saved after
its origin_id was changed to "XYZ". -/
theorem c2_derived_id_immutable_witness :
    ((dataModelSave
        { id := none, data_source_id := some "data-source", origin_id := "ABC123" }).id
        = some "data-source:ABC123") ∧
    ((dataModelSave
        { id := some "data-source:ABC123", data_source_id := some "data-source",
          origin_id := "XYZ" }).id = some "data-source:ABC123") := by
  have h := c2_derived_id_immutable (some "data-source") (some "data-source") "ABC123" "XYZ"
  exact ⟨h.1, h.2.2 _ "data-source:ABC123" rfl (by decide)⟩

/-! ## importers.py: configuration merge (RestAPIImporter.__init__)

Lines 241-252: when an override config is given, the importer pops both
field_config dicts and rebuilds a merged one by walking the override's
`fields` list: the override's per-field entry wins, else the default's
entry is used, else the field gets no entry; fields not listed are
dropped.  A per-field config is itself a dict (modelled as an
association list of JSON values). -/

abbrev FieldCfg := List (String × JValue)

/-- One iteration of the merge loop of __init__ lines 246-250. -/
def mergeStep (defaultFc givenFc : List (String × FieldCfg))
    (acc : List (String × FieldCfg)) (field : String) : List (String × FieldCfg) :=
  match alget givenFc field with
  | some c => alset acc field c
  | none =>
    match alget defaultFc field with
    | some c => alset acc field c
    | none => acc

/-- The merged field_config built by __init__ lines 245-251 from the
default config's field_config, the override's field_config and the
override's `fields` list. -/
def mergedFieldConfig (defaultFc givenFc : List (String × FieldCfg))
    (givenFields : List String) : List (String × FieldCfg) :=
  givenFields.foldl (mergeStep defaultFc givenFc) []

theorem mergedFieldConfig_foldl_lookup (defaultFc givenFc : List (String × FieldCfg))
    (fl : List String) :
    ∀ (acc : List (String × FieldCfg)) (f : String),
      alget (fl.foldl (mergeStep defaultFc givenFc) acc) f =
        if f ∈ fl ∧ ((alget givenFc f).isSome ∨ (alget defaultFc f).isSome) then
          (alget givenFc f).orElse (fun _ => alget defaultFc f)
        else alget acc f := by
  induction fl with
  | nil => intro acc f; simp
  | cons x fl ih =>
    intro acc f
    rw [List.foldl_cons, ih]
    by_cases hmem : f ∈ fl ∧ ((alget givenFc f).isSome ∨ (alget defaultFc f).isSome)
    · have hmem' : f ∈ x :: fl ∧ ((alget givenFc f).isSome ∨ (alget defaultFc f).isSome) :=
        ⟨List.mem_cons_of_mem x hmem.1, hmem.2⟩
      rw [if_pos hmem, if_pos hmem']
    · rw [if_neg hmem]
      by_cases hx : f = x
      · subst hx
        unfold mergeStep
        cases hg : alget givenFc f with
        | some c => simp [alget_alset, Option.orElse]
        | none =>
          cases hd : alget defaultFc f with
          | some c => simp [alget_alset, Option.orElse]
          | none => simp
      · have hp : ¬ (f ∈ x :: fl ∧ ((alget givenFc f).isSome ∨ (alget defaultFc f).isSome)) := by
          intro hc
          rcases List.mem_cons.mp hc.1 with h | h
          · exact hx h
          · exact hmem ⟨h, hc.2⟩
        rw [if_neg hp]
        cases hg : alget givenFc x with
        | some c => simp [mergeStep, hg, alget_alset, hx]
        | none =>
          cases hd : alget defaultFc x with
          | some c => simp [mergeStep, hg, hd, alget_alset, hx]
          | none => simp [mergeStep, hg, hd]

/-- Claim C5, amended: a field is present in the merged field_config
exactly when it is listed in the override's `fields` list AND has an
entry in the override's or the default's field_config; the entry is the
override's when present, else the default's.  In particular every field
configured in the default config but not listed in the override's
`fields` is dropped (the lookup is `none`). -/
theorem c5_field_config_merge (defaultFc givenFc : List (String × FieldCfg))
    (givenFields : List String) (f : String) :
    alget (mergedFieldConfig defaultFc givenFc givenFields) f =
      if f ∈ givenFields then (alget givenFc f).orElse (fun _ => alget defaultFc f)
      else none := by
  unfold mergedFieldConfig
  rw [mergedFieldConfig_foldl_lookup]
  by_cases hmem : f ∈ givenFields
  · by_cases hs : (alget givenFc f).isSome ∨ (alget defaultFc f).isSome
    · rw [if_pos ⟨hmem, hs⟩, if_pos hmem]
    · rw [if_neg (fun hc => hs hc.2), if_pos hmem]
      push_neg at hs
      rw [Option.not_isSome_iff_eq_none.mp hs.1, Option.not_isSome_iff_eq_none.mp hs.2]
      simp [alget, Option.orElse]
  · rw [if_neg (fun hc => hmem hc.1), if_neg hmem]
    simp [alget]

/-- Claim C5, counterexample: with an empty base field_config, an empty
override field_config and override fields list ["name"], the field
"name" is listed in the override's fields yet absent from the merged
field_config, refuting "the merged field_config contains exactly the
fields listed in the override's fields list". -/
theorem c5_counterexample :
    "name" ∈ ["name"] ∧
      alget (mergedFieldConfig ([] : List (String × FieldCfg)) [] ["name"]) "name" = none :=
  ⟨by decide, by decide⟩

/-! ## importers.py: the paginated fetcher (_data_iter, _build_resource_url)

The HTTP layer (requests.get + raise_for_status + .json()) is a
parameter: `httpGet url` is the parsed JSON body, or none for a
transport error / non-2xx status, which the code wraps in
DataImportError. -/

/-- Errors of the embedded importer: DataImportError with its message,
Organization.DoesNotExist, any other Python exception (KeyError,
TypeError, ...) that the importer never catches, and exhaustion of the
recursion fuel (Python would hit RecursionError / loop forever). -/
inductive ImpError where
  | dataImport (msg : String)
  | doesNotExist
  | pyErr (msg : String)
  | fuelExhausted
  deriving DecidableEq

instance {ε α : Type} [DecidableEq ε] [DecidableEq α] : DecidableEq (Except ε α)
  | .error e, .error f =>
    if h : e = f then .isTrue (h ▸ rfl) else .isFalse (fun hc => h (Except.error.inj hc))
  | .error _, .ok _ => .isFalse (fun hc => Except.noConfusion hc)
  | .ok _, .error _ => .isFalse (fun hc => Except.noConfusion hc)
  | .ok a, .ok b =>
    if h : a = b then .isTrue (h ▸ rfl) else .isFalse (fun hc => h (Except.ok.inj hc))

/-- Does the character list start with the given pattern? -/
def startsWithL : List Char → List Char → Bool
  | [], _ => true
  | _ :: _, [] => false
  | p :: ps, x :: xs => p == x && startsWithL ps xs

/-- Split at the first occurrence of the pattern, returning the parts
before and after it. -/
def findSub (pat : List Char) : List Char → Option (List Char × List Char)
  | [] => if pat.isEmpty then some ([], []) else none
  | x :: xs =>
    if startsWithL pat (x :: xs) then some ([], List.drop pat.length (x :: xs))
    else
      match findSub pat xs with
      | some (before, after) => some (x :: before, after)
      | none => none

/-- Split "scheme://rest" into scheme and rest, when a "://" occurs. -/
def splitSchemeRest (url : String) : Option (String × String) :=
  match findSub ("://".toList) url.toList with
  | some (before, after) => some (String.mk before, String.mk after)
  | none => none

/-- The scheme+host prefix of an absolute URL. -/
def urlOrigin (url : String) : String :=
  match splitSchemeRest url with
  | some (scheme, rest) => scheme ++ "://" ++ String.mk (rest.toList.takeWhile (fun c => c ≠ '/'))
  | none => ""

def isAbsoluteUrl (s : String) : Bool :=
  (splitSchemeRest s).isSome

/-- The base URL up to and including its last "/". -/
def baseDir (base : String) : String :=
  String.mk ((base.toList.reverse.dropWhile (fun c => c ≠ '/')).reverse)

/-- urllib.parse.urljoin restricted to the link shapes the importer
meets (see _build_resource_url's docstring): an absolute next link is
returned unchanged, a path-only link is resolved against the base URL's
scheme+host, any other relative link replaces the base's last path
segment. -/
def pyUrljoin (base rel : String) : String :=
  if isAbsoluteUrl rel then rel
  else if startsWithL ("/".toList) rel.toList then urlOrigin base ++ rel
  else baseDir base ++ rel

/-- _build_resource_url (importers.py lines 343-354): resolve a resource
id against the importer's configured endpoint URL. -/
def buildResourceUrl (selfUrl resourceId : String) : String :=
  pyUrljoin selfUrl resourceId

/-- Python truthiness of an optional configured key (`if self.next_key:`
treats both None and "" as absent). -/
def keyIfTruthy : Option String → Option String
  | none => none
  | some k => if k = "" then none else some k

/-- Iterating a parsed JSON body in Python: a list yields its elements,
a dict its keys, a string its one-character substrings; other values
raise TypeError. -/
def pyIter : JValue → Except ImpError (List JValue)
  | .jlist xs => .ok xs
  | .jdict kvs => .ok (kvs.map (fun kv => JValue.jstr kv.1))
  | .jstr s => .ok (s.toList.map (fun c => JValue.jstr (String.mk [c])))
  | _ => .error (.pyErr "TypeError: object is not iterable")

/-- `data[self.results_key] if self.results_key else data` followed by
iteration (importers.py line 592). -/
def extractPageItems (resultsKey : Option String) (data : JValue) :
    Except ImpError (List JValue) :=
  match resultsKey with
  | none => pyIter data
  | some k =>
    match data with
    | .jdict kvs =>
      match alget kvs k with
      | some v => pyIter v
      | none => .error (.pyErr ("KeyError: " ++ k))
    | _ => .error (.pyErr "TypeError: value is not subscriptable")

/-- Reading the next-page link (importers.py lines 597-601):
`data["meta"][next_key]` when has_meta, else `data[next_key]`; a missing
key raises KeyError. -/
def extractNextLink (nextKey : String) (hasMeta : Bool) (data : JValue) :
    Except ImpError JValue :=
  if hasMeta then
    match data with
    | .jdict kvs =>
      match alget kvs "meta" with
      | some (.jdict mkvs) =>
        match alget mkvs nextKey with
        | some v => .ok v
        | none => .error (.pyErr ("KeyError: " ++ nextKey))
      | some _ => .error (.pyErr "TypeError: meta is not subscriptable")
      | none => .error (.pyErr "KeyError: meta")
    | _ => .error (.pyErr "TypeError: value is not subscriptable")
  else
    match data with
    | .jdict kvs =>
      match alget kvs nextKey with
      | some v => .ok v
      | none => .error (.pyErr ("KeyError: " ++ nextKey))
    | _ => .error (.pyErr "TypeError: value is not subscriptable")

/-- _data_iter (importers.py lines 578-604): fetch the page at `url`,
collect its records in array order, then follow a truthy next-page link
(resolved against the importer's configured URL, self.url) recursively.
The recursion is bounded by fuel.  Python yields each page's records
before fetching the next page; this embedding returns the whole record
list, or the first error. -/
def dataIter (httpGet : String → Option JValue) (resultsKey nextKey : Option String)
    (hasMeta : Bool) (selfUrl : String) : Nat → String → Except ImpError (List JValue)
  | 0, _ => .error .fuelExhausted
  | fuel + 1, url =>
    match httpGet url with
    | none => .error (.dataImport ("HTTPError: " ++ url))
    | some data =>
      match extractPageItems (keyIfTruthy resultsKey) data with
      | .error e => .error e
      | .ok items =>
        match keyIfTruthy nextKey with
        | none => .ok items
        | some k =>
          match extractNextLink k hasMeta data with
          | .error e => .error e
          | .ok nv =>
            if nv.truthy then
              match nv with
              | .jstr s =>
                match dataIter httpGet resultsKey nextKey hasMeta selfUrl fuel
                    (buildResourceUrl selfUrl s) with
                | .error e => .error e
                | .ok rest => .ok (items ++ rest)
              | _ => .error (.pyErr "TypeError: next link is not a string")
            else .ok items

/-- Claim C6: for an endpoint whose first page carries a (possibly
path-only) next link and whose second page carries a null next link,
iterating from the first page yields exactly page 1's records followed
by page 2's records, each page in array order, and the walk terminates
(the result is stable for every sufficient fuel).  The next link is
resolved against the originating request URL (buildResourceUrl selfUrl
link) before the second fetch. -/
theorem c6_pagination (httpGet : String → Option JValue) (resultsKey : Option String)
    (nextKey : String) (hasMeta : Bool) (selfUrl link : String)
    (page1 page2 : JValue) (r1 r2 : List JValue)
    (hk : nextKey ≠ "")
    (h1 : httpGet selfUrl = some page1)
    (hi1 : extractPageItems (keyIfTruthy resultsKey) page1 = .ok r1)
    (hn1 : extractNextLink nextKey hasMeta page1 = .ok (.jstr link))
    (hlink : link ≠ "")
    (h2 : httpGet (buildResourceUrl selfUrl link) = some page2)
    (hi2 : extractPageItems (keyIfTruthy resultsKey) page2 = .ok r2)
    (hn2 : extractNextLink nextKey hasMeta page2 = .ok .jnull) :
    ∀ fuel, 2 ≤ fuel →
      dataIter httpGet resultsKey (some nextKey) hasMeta selfUrl fuel selfUrl
        = .ok (r1 ++ r2) := by
  intro fuel hfuel
  obtain ⟨n, rfl⟩ : ∃ n, fuel = n + 2 := ⟨fuel - 2, by omega⟩
  show dataIter httpGet resultsKey (some nextKey) hasMeta selfUrl (n + 1 + 1) selfUrl
    = .ok (r1 ++ r2)
  have hks : keyIfTruthy (some nextKey) = some nextKey := by
    simp [keyIfTruthy, hk]
  have hl : JValue.truthy (.jstr link) = true := by
    simp [JValue.truthy, hlink]
  rw [dataIter, h1]
  simp only [hi1, hks, hn1]
  rw [if_pos hl]
  simp only [dataIter, h2, hi2, hks, hn2]
  simp [JValue.truthy]

/-- Witness for C6 at a concrete two-page endpoint: page 1 at
"https://api.example.com/v1/organization/" holds records "a" and "b"
and a path-only next link; page 2 (resolved to the same host) holds
record "c" and a null next link; the iteration returns [a, b, c]. -/
theorem c6_pagination_witness :
    dataIter
      (fun u =>
        if u = "https://api.example.com/v1/organization/" then
          some (.jdict [("results", .jlist [.jstr "a", .jstr "b"]),
                        ("next", .jstr "/v1/organization/?page=2")])
        else if u = "https://api.example.com/v1/organization/?page=2" then
          some (.jdict [("results", .jlist [.jstr "c"]), ("next", .jnull)])
        else none)
      (some "results") (some "next") false
      "https://api.example.com/v1/organization/" 2
      "https://api.example.com/v1/organization/"
      = .ok [.jstr "a", .jstr "b", .jstr "c"] := by
  exact c6_pagination _ (some "results") "next" false
    "https://api.example.com/v1/organization/" "/v1/organization/?page=2"
    (.jdict [("results", .jlist [.jstr "a", .jstr "b"]),
             ("next", .jstr "/v1/organization/?page=2")])
    (.jdict [("results", .jlist [.jstr "c"]), ("next", .jnull)])
    [.jstr "a", .jstr "b"] [.jstr "c"]
    (by decide) (by decide) (by decide) (by decide) (by decide)
    (by decide) (by decide) (by decide) 2 (by decide)

/-! ## importers.py: the organization import engine

The importer instance's mutable per-run data (the relevant database
tables and the caches self._organizations, self._organization_classes,
self._data_sources) becomes an explicit state record threaded through
every function; the merged configuration, the external oracles (regex
engine, link fetching, URL validation) and the read-only raw-record
index self._data_dict live in an environment record.  `clsResolutions`
counts entries into _import_organization_class, so that "without
re-resolving the classification" is expressible. -/

/-- A resolved field value: plain JSON, or the related model instance
produced by the related-import dispatch (a DataSource pk, an
OrganizationClass pk, or an Organization pk / None). -/
inductive RVal where
  | json (j : JValue)
  | ds (id : String)
  | cls (id : String)
  | org (o : Option String)
  deriving DecidableEq

def RVal.truthy : RVal → Bool
  | .json j => j.truthy
  | .ds _ => true
  | .cls _ => true
  | .org o => o.isSome

/-- Python str() of a resolved value, as stored into a CharField. -/
def RVal.pyStr : RVal → String
  | .json j => j.pyStr
  | .ds i => i
  | .cls i => i
  | .org o => optPyStr o

/-- The data_source foreign-key column value this resolved value denotes
(an instance contributes its pk, a bare string is taken as a pk, null
and anything else clear the column). -/
def RVal.dsKey : RVal → Option String
  | .ds i => some i
  | .json (.jstr s) => some s
  | _ => none

structure DSRow where
  id : String
  deriving DecidableEq

structure ClsRow where
  id : String
  data_source : Option String
  origin_id : String
  name : String
  deriving DecidableEq

/-- An Organization row: the pk, the two identity columns and the other
columns as a field map (name, classification, parent, ...). -/
structure OrgRow where
  id : String
  data_source : Option String
  origin_id : String
  attrs : List (String × RVal)
  deriving DecidableEq

structure ImpState where
  orgs : List OrgRow
  classes : List ClsRow
  sources : List DSRow
  orgCache : List (RVal × Option String)
  clsCache : List (Option JValue × String)
  dsCache : List (JValue × String)
  defaultParent : Option String
  clsResolutions : Nat
  deriving DecidableEq

structure Env where
  fields : List String
  update_fields : List String
  field_config : List (String × FieldCfg)
  skip_classifications : List String
  rename_data_source : List (String × String)
  default_data_source : String
  default_parent_organization : Option String
  regexSearch : String → String → Option String
  linkGet : String → Option JValue
  urlValid : String → Bool
  dataDict : List (JValue × JValue)

abbrev Res (α : Type) := Except ImpError α × ImpState

def jTruthyO : Option JValue → Bool
  | some j => j.truthy
  | none => false

def optJPyStr : Option JValue → String
  | some j => j.pyStr
  | none => "None"

/-- Truthiness of a field-config entry (`config.get(key)`). -/
def cfgTruthy (c : FieldCfg) (k : String) : Bool :=
  jTruthyO (alget c k)

def cfgOptional (c : FieldCfg) : Bool := cfgTruthy c "optional"

def cfgUnwrapList (c : FieldCfg) : Bool := cfgTruthy c "unwrap_list"

def cfgUnquote (c : FieldCfg) : Bool := cfgTruthy c "unquote"

/-- `config.get("source_field") or field` (line 622). -/
def cfgSourceField (c : FieldCfg) (field : String) : String :=
  match alget c "source_field" with
  | some j => if j.truthy then j.pyStr else field
  | none => field

/-- `config.get("pattern")` with Python truthiness (lines 649-652). -/
def cfgPattern (c : FieldCfg) : Option String :=
  match alget c "pattern" with
  | some j => if j.truthy then some j.pyStr else none
  | none => none

inductive DType where
  | value
  | strLower
  | link
  | regex
  | orgId
  | orgIdRegex
  deriving DecidableEq

/-- Lines 637-647: a truthy configured data_type must name a member of
the DataType enum, otherwise DataImportError; a missing or falsy one
defaults to VALUE. -/
def parseDataType (c : FieldCfg) : Except ImpError DType :=
  match alget c "data_type" with
  | none => .ok .value
  | some j =>
    if j.truthy then
      if j = .jstr "value" then .ok .value
      else if j = .jstr "str_lower" then .ok .strLower
      else if j = .jstr "link" then .ok .link
      else if j = .jstr "regex" then .ok .regex
      else if j = .jstr "org_id" then .ok .orgId
      else if j = .jstr "org_id_regex" then .ok .orgIdRegex
      else .error (.dataImport ("Invalid data type: " ++ j.pyStr ++
        ". Supported data types are: value, str_lower, link, regex, org_id, org_id_regex"))
    else .ok .value

def lowerStr (s : String) : String :=
  String.mk (s.toList.map Char.toLower)

def hexVal (c : Char) : Option Nat :=
  if '0' ≤ c ∧ c ≤ '9' then some (c.toNat - '0'.toNat)
  else if 'a' ≤ c ∧ c ≤ 'f' then some (c.toNat - 'a'.toNat + 10)
  else if 'A' ≤ c ∧ c ≤ 'F' then some (c.toNat - 'A'.toNat + 10)
  else none

/-- urllib.parse.unquote restricted to single-byte percent escapes (the
only shapes the importer's configs feed it). -/
def unquoteL : List Char → List Char
  | [] => []
  | '%' :: a :: b :: rest =>
    match hexVal a, hexVal b with
    | some ha, some hb => Char.ofNat (16 * ha + hb) :: unquoteL rest
    | _, _ => '%' :: unquoteL (a :: b :: rest)
  | c :: rest => c :: unquoteL rest

def pyUnquote (s : String) : String :=
  String.mk (unquoteL s.toList)

def JValue.isList : JValue → Bool
  | .jlist _ => true
  | _ => false

/-- `value[0]` (line 662) on the unwrapped value. -/
def pyIndexZero : JValue → Except ImpError JValue
  | .jlist (x :: _) => .ok x
  | .jlist [] => .error (.pyErr "IndexError: list index out of range")
  | .jstr s =>
    match s.toList with
    | c :: _ => .ok (.jstr (String.mk [c]))
    | [] => .error (.pyErr "IndexError: string index out of range")
  | _ => .error (.pyErr "TypeError: value is not subscriptable")

def pyUnquoteJ : JValue → Except ImpError JValue
  | .jstr s => .ok (.jstr (pyUnquote s))
  | _ => .error (.pyErr "TypeError: expected str")

/-- _get_regex_data (lines 685-695): capture group 1 of the first match,
or DataImportError when the pattern does not match.  The regex engine
itself (Python's re.search) is the env's oracle. -/
def getRegexData (env : Env) (value pat : String) : Except ImpError String :=
  match env.regexSearch pat value with
  | some g => .ok g
  | none =>
    .error (.dataImport ("Cannot extract value from string " ++ value ++
      " with pattern " ++ pat))

/-- _get_link_data (lines 697-712): validate the URL, fetch it, return
the parsed JSON body; both validation failure and an HTTP error become
DataImportError. -/
def getLinkData (env : Env) (value : String) : Except ImpError JValue :=
  if env.urlValid value then
    match env.linkGet value with
    | some j => .ok j
    | none => .error (.dataImport ("HTTPError: " ++ value))
  else .error (.dataImport ("Invalid URL: " ++ value))

/-- The outcome of _get_field_value before the related-import dispatch:
`early` is the early return of a falsy value (line 634-635, before any
transform), `trans` is the fully transformed value, which is still
subject to the related dispatch. -/
inductive RawRes where
  | early (v : JValue)
  | trans (v : JValue)
  deriving DecidableEq

/-- The pure part of _get_field_value (lines 606-676): source-field
lookup, empty-list unwrap, falsy early return, data-type parse, missing
pattern check, list unwrap, unquote, and the data-type transform.  Only
the related-import dispatch (lines 678-681) is stateful and lives in
getFieldValue below. -/
def resolveRaw (env : Env) (dataItem : List (String × JValue)) (field : String)
    (cfg : FieldCfg) : Except ImpError RawRes :=
  let sf := cfgSourceField cfg field
  match alget dataItem sf with
  | none => .error (.dataImport ("Field not found in source data: " ++ sf))
  | some v0 =>
    let v1 := if cfgUnwrapList cfg && !v0.truthy && v0.isList then JValue.jnull else v0
    if !v1.truthy then .ok (.early v1)
    else
      match parseDataType cfg with
      | .error e => .error e
      | .ok dt =>
        if (dt = .regex ∨ dt = .orgIdRegex) ∧ (cfgPattern cfg).isNone then
          .error (.dataImport ("No regex pattern provided for the field: " ++ field))
        else
          match (if cfgUnwrapList cfg then pyIndexZero v1 else .ok v1) with
          | .error e => .error e
          | .ok v2 =>
            match (if cfgUnquote cfg then pyUnquoteJ v2 else .ok v2) with
            | .error e => .error e
            | .ok v3 =>
              match dt with
              | .value => .ok (.trans v3)
              | .strLower => .ok (.trans (.jstr (lowerStr v3.pyStr)))
              | .orgId =>
                match v3 with
                | .jlist _ => .error (.pyErr "TypeError: unhashable type")
                | .jdict _ => .error (.pyErr "TypeError: unhashable type")
                | v => .ok (.trans ((alget env.dataDict v).getD .jnull))
              | .orgIdRegex =>
                match v3 with
                | .jstr str =>
                  match getRegexData env str ((cfgPattern cfg).getD "") with
                  | .error e => .error e
                  | .ok g => .ok (.trans ((alget env.dataDict (JValue.jstr g)).getD .jnull))
                | _ => .error (.pyErr "TypeError: expected string or bytes-like object")
              | .regex =>
                match v3 with
                | .jstr str =>
                  match getRegexData env str ((cfgPattern cfg).getD "") with
                  | .error e => .error e
                  | .ok g => .ok (.trans (.jstr g))
                | _ => .error (.pyErr "TypeError: expected string or bytes-like object")
              | .link =>
                match v3 with
                | .jstr str =>
                  match getLinkData env str with
                  | .error e => .error e
                  | .ok j => .ok (.trans j)
                | _ => .error (.pyErr "TypeError: invalid URL value")

/-- _get_data_source (lines 396-412): apply the rename map to the
identifier before the cache lookup, then get-or-create by the final
identifier.  Django's get_or_create filters on every passed attribute;
these theorems only exercise the pk, so the row lookup is by pk. -/
def getDataSource (env : Env) (objData : List (String × JValue)) (s : ImpState) :
    Res String :=
  match alget objData "id" with
  | none => (.error (.pyErr "KeyError: id"), s)
  | some idv0 =>
    let idv := match idv0 with
      | .jstr i =>
        match alget env.rename_data_source i with
        | some r => JValue.jstr r
        | none => idv0
      | _ => idv0
    match alget s.dsCache idv with
    | some pk => (.ok pk, s)
    | none =>
      let pk := idv.pyStr
      if (s.sources.map DSRow.id).contains pk then
        (.ok pk, { s with dsCache := alset s.dsCache idv pk })
      else
        (.ok pk, { s with sources := s.sources ++ [{ id := pk }],
                          dsCache := alset s.dsCache idv pk })

/-- _import_data_source (lines 549-560). -/
def importDataSource (env : Env) (v : JValue) (s : ImpState) : Res String :=
  match v with
  | .jdict kvs => getDataSource env kvs s
  | _ => getDataSource env [("id", v)] s

def clsOriginId (classes : List ClsRow) (pk : String) : String :=
  match classes.find? (fun c => c.id == pk) with
  | some c => c.origin_id
  | none => ""

/-- _get_organization_class (lines 356-394). -/
def getOrganizationClass (env : Env) (objData : List (String × JValue)) (s : ImpState) :
    Res String :=
  let identifier : Option JValue := alget objData "id"
  let od := match identifier with
    | some (.jstr i) =>
      match findSub [':'] i.toList with
      | some (bef, aft) =>
        let od1 :=
          if (alget objData "data_source").isNone then
            alset objData "data_source" (.jstr (String.mk bef))
          else objData
        if (alget od1 "origin_id").isNone then
          alset od1 "origin_id" (.jstr (String.mk (aft.takeWhile (fun c => c ≠ ':'))))
        else od1
      | none => objData
    | _ => objData
  let od := if !jTruthyO (alget od "origin_id") then
      alset od "origin_id" (identifier.getD .jnull)
    else od
  let od := if !jTruthyO (alget od "data_source") then
      alset od "data_source" (.jstr env.default_data_source)
    else od
  match importDataSource env ((alget od "data_source").getD .jnull) s with
  | (.error e, s1) => (.error e, s1)
  | (.ok dsid, s1) =>
    let needReformat := match identifier with
      | some (.jstr i) => (findSub [':'] i.toList).isNone
      | _ => true
    let od := if needReformat then
        alset od "id" (.jstr (dsid ++ ":" ++ optJPyStr identifier))
      else od
    match alget s1.clsCache identifier with
    | some pk => (.ok pk, s1)
    | none =>
      let pk := optJPyStr (alget od "id")
      let nameV := match alget od "name" with
        | some j => j.pyStr
        | none => pk
      let originV := optJPyStr (alget od "origin_id")
      if (s1.classes.map ClsRow.id).contains pk then
        (.ok pk, { s1 with clsCache := alset s1.clsCache identifier pk })
      else
        (.ok pk,
          { s1 with
            classes := s1.classes ++
              [{ id := pk, data_source := some dsid, origin_id := originV, name := nameV }],
            clsCache := alset s1.clsCache identifier pk })

/-- _import_organization_class (lines 562-576); entering it bumps the
clsResolutions counter. -/
def importOrganizationClass (env : Env) (v : JValue) (s : ImpState) : Res String :=
  let s0 := { s with clsResolutions := s.clsResolutions + 1 }
  match v with
  | .jdict kvs =>
    match (if (alget kvs "origin_id").isSome then alget kvs "origin_id" else alget kvs "id") with
    | some idv =>
      getOrganizationClass env (alset (kvs.filter (fun kv => kv.1 ≠ "id")) "id" idv) s0
    | none => (.error (.pyErr "KeyError: id"), s0)
  | _ => getOrganizationClass env [("id", v)] s0

/-- _get_field_value (lines 606-683): the pure resolution followed by
the related-import dispatch for the three relation field names; the
parent import is the recursive organization import, passed in as
`impOrg`. -/
def getFieldValue (impOrg : JValue → ImpState → Res (Option String)) (env : Env)
    (dataItem : List (String × JValue)) (field : String) (cfg : FieldCfg)
    (s : ImpState) : Res RVal :=
  match resolveRaw env dataItem field cfg with
  | .error e => (.error e, s)
  | .ok (.early v) => (.ok (.json v), s)
  | .ok (.trans v) =>
    if field = "data_source" then
      match importDataSource env v s with
      | (.ok i, s') => (.ok (.ds i), s')
      | (.error e, s') => (.error e, s')
    else if field = "classification" then
      match importOrganizationClass env v s with
      | (.ok i, s') => (.ok (.cls i), s')
      | (.error e, s') => (.error e, s')
    else if field = "parent" then
      match impOrg v s with
      | (.ok o, s') => (.ok (.org o), s')
      | (.error e, s') => (.error e, s')
    else (.ok (.json v), s)

/-- The shared field loop of _import_organization_update (lines 473-483)
and _import_organization_create (lines 516-524): resolve each field,
catching DataImportError and skipping the field when it is optional;
any other exception propagates. -/
def resolveFieldsLoop (gfv : String → FieldCfg → ImpState → Res RVal) (env : Env) :
    List String → List (String × RVal) → ImpState → Res (List (String × RVal))
  | [], acc, s => (.ok acc, s)
  | f :: fs, acc, s =>
    let cfg := (alget env.field_config f).getD []
    match gfv f cfg s with
    | (.ok v, s') => resolveFieldsLoop gfv env fs (alset acc f v) s'
    | (.error (.dataImport m), s') =>
      if cfgOptional cfg then resolveFieldsLoop gfv env fs acc s'
      else (.error (.dataImport m), s')
    | (.error e, s') => (.error e, s')

/-- `Organization.objects.get(origin_id__iexact=..., data_source=...)`
(lines 495-497): first row matching case-insensitively on origin_id and
exactly on the data_source fk. -/
def dbGetOrg (orgs : List OrgRow) (originId : String) (dsk : Option String) :
    Option OrgRow :=
  orgs.find? (fun r => lowerStr r.origin_id == lowerStr originId && r.data_source == dsk)

/-- `setattr(organization, field, value)`: identity columns are
dedicated row fields, everything else lands in the attr map. -/
def orgSetField (r : OrgRow) (f : String) (v : RVal) : OrgRow :=
  if f = "origin_id" then { r with origin_id := v.pyStr }
  else if f = "data_source" then { r with data_source := v.dsKey }
  else if f = "id" then { r with id := v.pyStr }
  else { r with attrs := alset r.attrs f v }

/-- Truthiness of `organization.parent`. -/
def orgParentTruthy (r : OrgRow) : Bool :=
  match alget r.attrs "parent" with
  | some v => v.truthy
  | none => false

/-- Persisting a fetched-and-modified row: replace it by pk. -/
def dbReplaceOrg (orgs : List OrgRow) (row : OrgRow) : List OrgRow :=
  orgs.map (fun r => if r.id = row.id then row else r)

/-- Truthiness of config.get("default_parent_organization", None). -/
def dpoSet (env : Env) : Bool :=
  match env.default_parent_organization with
  | some p => p ≠ ""
  | none => false

/-- _import_organization_update (lines 471-511): resolve update_fields,
fetch the existing row (DoesNotExist propagates to the caller), apply
the resolved values, inject the default parent when configured and the
row has none, save, cache under the stored origin_id. -/
def importOrganizationUpdate (gfv : String → FieldCfg → ImpState → Res RVal)
    (env : Env) (originKey dsVal : RVal) (s : ImpState) : Res (Option String) :=
  match resolveFieldsLoop gfv env env.update_fields [] s with
  | (.error e, s1) => (.error e, s1)
  | (.ok vals, s1) =>
    match dbGetOrg s1.orgs originKey.pyStr dsVal.dsKey with
    | none => (.error .doesNotExist, s1)
    | some row =>
      let row1 := vals.foldl (fun r kv => orgSetField r kv.1 kv.2) row
      let row2 :=
        if dpoSet env && !orgParentTruthy row1 && (some row1.id != s1.defaultParent) then
          orgSetField row1 "parent" (.org s1.defaultParent)
        else row1
      (.ok (some row2.id),
        { s1 with
          orgs := dbReplaceOrg s1.orgs row2,
          orgCache := alset s1.orgCache (.json (.jstr row2.origin_id)) (some row2.id) })

def skipHit (env : Env) (classes : List ClsRow) (cv : Option RVal) : Bool :=
  match cv with
  | some (.cls pk) => env.skip_classifications.contains (clsOriginId classes pk)
  | _ => false

/-- `Organization.objects.create(**object_data)`: build the row; the pk
is set by DataModel.save from the data_source and origin_id columns
(the shared compositeId), unless a truthy id was passed explicitly. -/
def mkOrgRow (od : List (String × RVal)) : OrgRow :=
  let originStr := match alget od "origin_id" with
    | some v => v.pyStr
    | none => ""
  let dsCol := match alget od "data_source" with
    | some v => v.dsKey
    | none => none
  let pk := match alget od "id" with
    | some v => if v.truthy then v.pyStr else compositeId dsCol originStr
    | none => compositeId dsCol originStr
  { id := pk, data_source := dsCol, origin_id := originStr,
    attrs := od.filter (fun kv => kv.1 ≠ "origin_id" && kv.1 ≠ "data_source" && kv.1 ≠ "id") }

/-- _import_organization_create (lines 513-547): resolve all fields on
top of the identity pair, abort with a cached null when the resolved
classification's origin_id is on the skip list, otherwise insert the
row, inject the default parent when configured, and cache the result
under the resolved origin_id. -/
def importOrganizationCreate (gfv : String → FieldCfg → ImpState → Res RVal)
    (env : Env) (originKey dsVal : RVal) (s : ImpState) : Res (Option String) :=
  match resolveFieldsLoop gfv env env.fields
      [("origin_id", originKey), ("data_source", dsVal)] s with
  | (.error e, s1) => (.error e, s1)
  | (.ok od, s1) =>
    if skipHit env s1.classes (alget od "classification") then
      (.ok none, { s1 with orgCache := alset s1.orgCache originKey none })
    else
      let row := mkOrgRow od
      let s2 := { s1 with orgs := s1.orgs ++ [row] }
      if dpoSet env && !orgParentTruthy row && (some row.id != s2.defaultParent) then
        let row' := orgSetField row "parent" (.org s2.defaultParent)
        (.ok (some row'.id),
          { s2 with
            orgs := dbReplaceOrg s2.orgs row',
            orgCache := alset s2.orgCache originKey (some row'.id) })
      else
        (.ok (some row.id), { s2 with orgCache := alset s2.orgCache originKey (some row.id) })

/-- The try/except Organization.DoesNotExist of lines 462-469: update
first, fall back to create exactly on DoesNotExist. -/
def importOrganizationTail (gfv : String → FieldCfg → ImpState → Res RVal)
    (env : Env) (originKey dsVal : RVal) (s : ImpState) : Res (Option String) :=
  match importOrganizationUpdate gfv env originKey dsVal s with
  | (.error .doesNotExist, s1) => importOrganizationCreate gfv env originKey dsVal s1
  | r => r

/-- Lines 451-456: resolve the configured default data source through
_get_field_value with a synthetic one-field record. -/
def resolveDefaultDataSource (impOrg : JValue → ImpState → Res (Option String))
    (env : Env) (s : ImpState) : Res RVal :=
  getFieldValue impOrg env [("data_source", .jstr env.default_data_source)]
    "data_source" [("data_type", .jstr "value")] s

/-- The body of _import_organization (lines 419-469): reject non-dict
data, resolve origin_id, serve a cached origin_id from the run cache,
resolve data_source (a DataImportError is swallowed when the field
config is absent/empty or marks the field optional; a falsy result
falls back to the default data source), then update-or-create. -/
def importOrganizationBody (impOrg : JValue → ImpState → Res (Option String))
    (env : Env) (data : JValue) (s : ImpState) : Res (Option String) :=
  let ocfg := (alget env.field_config "origin_id").getD []
  match data with
  | .jdict kvs =>
    match getFieldValue impOrg env kvs "origin_id" ocfg s with
    | (.error e, s1) => (.error e, s1)
    | (.ok originKey, s1) =>
      match alget s1.orgCache originKey with
      | some cached => (.ok cached, s1)
      | none =>
        let dcfg := (alget env.field_config "data_source").getD []
        match getFieldValue impOrg env kvs "data_source" dcfg s1 with
        | (.ok dsv, s2) =>
          if dsv.truthy then
            importOrganizationTail (getFieldValue impOrg env kvs) env originKey dsv s2
          else
            match resolveDefaultDataSource impOrg env s2 with
            | (.error e, s3) => (.error e, s3)
            | (.ok dsv2, s3) =>
              importOrganizationTail (getFieldValue impOrg env kvs) env originKey dsv2 s3
        | (.error (.dataImport m), s2) =>
          if dcfg.isEmpty || cfgOptional dcfg then
            match resolveDefaultDataSource impOrg env s2 with
            | (.error e, s3) => (.error e, s3)
            | (.ok dsv2, s3) =>
              importOrganizationTail (getFieldValue impOrg env kvs) env originKey dsv2 s3
          else (.error (.dataImport m), s2)
        | (.error e, s2) => (.error e, s2)
  | _ => (.error (.dataImport "Organization data must be dict."), s)

/-- @transaction.atomic on _import_organization: on an escaping error
the database tables roll back to the savepoint taken at entry, while
the in-memory caches keep their mutations (Python objects are not
transactional). -/
def atomicRun {α : Type} (act : ImpState → Res α) (s : ImpState) : Res α :=
  match act s with
  | (.ok a, s') => (.ok a, s')
  | (.error e, s') =>
    (.error e, { s' with orgs := s.orgs, classes := s.classes, sources := s.sources })

/-- _import_organization (lines 419-469), with fuel bounding the
parent-chain recursion (Python's RecursionError). -/
def importOrganization (env : Env) : Nat → JValue → ImpState → Res (Option String)
  | 0, _, s => (.error .fuelExhausted, s)
  | fuel + 1, data, s =>
    atomicRun (importOrganizationBody (importOrganization env fuel) env data) s

/-! ## Engine lemmas and per-claim theorems -/

/-- Resolving a field outside the three relation names never touches the
run state: only the related-import dispatch is stateful. -/
theorem getFieldValue_nonrel (impOrg : JValue → ImpState → Res (Option String))
    (env : Env) (dataItem : List (String × JValue)) (field : String) (cfg : FieldCfg)
    (s : ImpState)
    (h1 : field ≠ "data_source") (h2 : field ≠ "classification") (h3 : field ≠ "parent") :
    getFieldValue impOrg env dataItem field cfg s =
      (match resolveRaw env dataItem field cfg with
       | .error e => (.error e, s)
       | .ok (.early v) => (.ok (.json v), s)
       | .ok (.trans v) => (.ok (.json v), s)) := by
  unfold getFieldValue
  cases resolveRaw env dataItem field cfg with
  | error e => rfl
  | ok r =>
    cases r with
    | early v => rfl
    | trans v => simp [h1, h2, h3]

/-- Cache hit in _import_organization: once the resolved origin_id is a
key of self._organizations, the import returns the cached value with the
whole run state untouched. -/
theorem importOrg_cache_hit (env : Env) (fuel : Nat) (kvs : List (String × JValue))
    (s : ImpState) (originKey : RVal) (cached : Option String)
    (hres : getFieldValue (importOrganization env fuel) env kvs "origin_id"
        ((alget env.field_config "origin_id").getD []) s = (.ok originKey, s))
    (hcache : alget s.orgCache originKey = some cached) :
    importOrganization env (fuel + 1) (.jdict kvs) s = (.ok cached, s) := by
  rw [importOrganization]
  unfold atomicRun
  simp only [importOrganizationBody, hres, hcache]

/-- Claim C8: when the resolved origin_id is already a key of the run's
organization cache, importing any record that resolves to it returns the
cached value and leaves the whole state unchanged (same database tables,
same caches, same classification-resolution count): no re-fetch, no
field update, no create, whatever the payload is. -/
theorem c8_first_writer_wins (env : Env) (fuel : Nat) (kvs : List (String × JValue))
    (s : ImpState) (originKey : RVal) (cached : Option String)
    (hres : getFieldValue (importOrganization env fuel) env kvs "origin_id"
        ((alget env.field_config "origin_id").getD []) s = (.ok originKey, s))
    (hcache : alget s.orgCache originKey = some cached) :
    importOrganization env (fuel + 1) (.jdict kvs) s = (.ok cached, s) :=
  importOrg_cache_hit env fuel kvs s originKey cached hres hcache

/-- A small concrete environment for the witnesses. -/
def sampleEnv : Env where
  fields := ["origin_id", "name"]
  update_fields := ["name"]
  field_config := []
  skip_classifications := []
  rename_data_source := []
  default_data_source := "ds1"
  default_parent_organization := none
  regexSearch := fun _ _ => none
  linkGet := fun _ => none
  urlValid := fun _ => false
  dataDict := []

def emptyState : ImpState where
  orgs := []
  classes := []
  sources := []
  orgCache := []
  clsCache := []
  dsCache := []
  defaultParent := none
  clsResolutions := 0

/-- Witness for C8: with "o1" already cached to the row pk "ds1:o1",
importing a record with origin_id "o1" but an entirely different payload
(a different name) returns the cached pk and leaves the state alone. -/
theorem c8_first_writer_wins_witness :
    importOrganization sampleEnv 1
      (.jdict [("origin_id", .jstr "o1"), ("name", .jstr "changed name")])
      { emptyState with orgCache := [(.json (.jstr "o1"), some "ds1:o1")] }
      = (.ok (some "ds1:o1"),
         { emptyState with orgCache := [(.json (.jstr "o1"), some "ds1:o1")] }) :=
  c8_first_writer_wins sampleEnv 0
    [("origin_id", .jstr "o1"), ("name", .jstr "changed name")]
    { emptyState with orgCache := [(.json (.jstr "o1"), some "ds1:o1")] }
    (.json (.jstr "o1")) (some "ds1:o1") (by decide) (by decide)

/-- Evaluation of the pure field resolution for a present, non-empty
string value with unwrap_list and unquote off: the data-type transform
decides the result. -/
theorem resolveRaw_strval (env : Env) (rec : List (String × JValue)) (field : String)
    (cfg : FieldCfg) (v : String)
    (hsrc : alget rec (cfgSourceField cfg field) = some (.jstr v))
    (hv : v ≠ "")
    (hw : cfgUnwrapList cfg = false) (hq : cfgUnquote cfg = false)
    (dt : DType) (hdt : parseDataType cfg = .ok dt) :
    resolveRaw env rec field cfg =
      (if (dt = .regex ∨ dt = .orgIdRegex) ∧ (cfgPattern cfg).isNone then
        .error (.dataImport ("No regex pattern provided for the field: " ++ field))
      else
        match dt with
        | .value => .ok (.trans (.jstr v))
        | .strLower => .ok (.trans (.jstr (lowerStr v)))
        | .orgId => .ok (.trans ((alget env.dataDict (.jstr v)).getD .jnull))
        | .orgIdRegex =>
          match getRegexData env v ((cfgPattern cfg).getD "") with
          | .error e => .error e
          | .ok g => .ok (.trans ((alget env.dataDict (.jstr g)).getD .jnull))
        | .regex =>
          match getRegexData env v ((cfgPattern cfg).getD "") with
          | .error e => .error e
          | .ok g => .ok (.trans (.jstr g))
        | .link =>
          match getLinkData env v with
          | .error e => .error e
          | .ok j => .ok (.trans j)) := by
  simp only [resolveRaw, hsrc, hw, hq, hdt, Bool.false_and, Bool.if_false_left,
    Bool.not_and, if_false]
  simp [JValue.truthy, hv, JValue.pyStr]
  split
  · rfl
  · cases dt <;> rfl

/-- Claim C7: for a field whose configured data_type is regex (or
org_id_regex), with the candidate value present as a non-empty string:
no configured pattern means the resolution fails with the
no-pattern-provided DataImportError (the spec's ConfigurationError); a
configured pattern that does not match fails with the cannot-extract
DataImportError (the spec's FieldPatternError); a matching pattern
returns exactly capture group 1 of the first match, as reported by the
regex engine. -/
theorem c7_regex_field_resolution (impOrg : JValue → ImpState → Res (Option String))
    (env : Env) (rec : List (String × JValue)) (field : String) (cfg : FieldCfg)
    (s : ImpState) (v : String)
    (hf1 : field ≠ "data_source") (hf2 : field ≠ "classification") (hf3 : field ≠ "parent")
    (hsrc : alget rec (cfgSourceField cfg field) = some (.jstr v))
    (hv : v ≠ "")
    (hw : cfgUnwrapList cfg = false) (hq : cfgUnquote cfg = false) :
    ((parseDataType cfg = .ok .regex ∨ parseDataType cfg = .ok .orgIdRegex) →
      cfgPattern cfg = none →
      getFieldValue impOrg env rec field cfg s =
        (.error (.dataImport ("No regex pattern provided for the field: " ++ field)), s)) ∧
    (∀ pat : String, parseDataType cfg = .ok .regex → cfgPattern cfg = some pat →
      env.regexSearch pat v = none →
      getFieldValue impOrg env rec field cfg s =
        (.error (.dataImport ("Cannot extract value from string " ++ v ++
          " with pattern " ++ pat)), s)) ∧
    (∀ pat g : String, parseDataType cfg = .ok .regex → cfgPattern cfg = some pat →
      env.regexSearch pat v = some g →
      getFieldValue impOrg env rec field cfg s = (.ok (.json (.jstr g)), s)) := by
  refine ⟨?_, ?_, ?_⟩
  · intro hdt hp
    rw [getFieldValue_nonrel _ _ _ _ _ _ hf1 hf2 hf3]
    rcases hdt with hdt | hdt
    · rw [resolveRaw_strval env rec field cfg v hsrc hv hw hq .regex hdt]
      simp [hp]
    · rw [resolveRaw_strval env rec field cfg v hsrc hv hw hq .orgIdRegex hdt]
      simp [hp]
  · intro pat hdt hp hre
    rw [getFieldValue_nonrel _ _ _ _ _ _ hf1 hf2 hf3]
    rw [resolveRaw_strval env rec field cfg v hsrc hv hw hq .regex hdt]
    simp [hp, getRegexData, hre]
  · intro pat g hdt hp hre
    rw [getFieldValue_nonrel _ _ _ _ _ _ hf1 hf2 hf3]
    rw [resolveRaw_strval env rec field cfg v hsrc hv hw hq .regex hdt]
    simp [hp, getRegexData, hre]

/-- An environment whose regex oracle knows the first match of the
pattern from the spec's example on "ABC-123" (capture group 1 is
"123"), and matches nothing else. -/
def regexEnv : Env :=
  { sampleEnv with
    regexSearch := fun p str =>
      if p = "\\w+-(\\d+)" && str = "ABC-123" then some "123" else none }

/-- Witness for C7 on the record value "ABC-123": a regex field with no
pattern raises the no-pattern DataImportError, the pattern "xyz(\d+)"
(which does not match) raises the cannot-extract DataImportError, and
the pattern "\w+-(\d+)" returns capture group 1, "123". -/
theorem c7_regex_field_resolution_witness :
    (getFieldValue (fun _ st => (.error .fuelExhausted, st)) regexEnv
        [("origin_id", .jstr "ABC-123")] "origin_id"
        [("data_type", .jstr "regex")] emptyState
      = (.error (.dataImport "No regex pattern provided for the field: origin_id"),
         emptyState)) ∧
    (getFieldValue (fun _ st => (.error .fuelExhausted, st)) regexEnv
        [("origin_id", .jstr "ABC-123")] "origin_id"
        [("data_type", .jstr "regex"), ("pattern", .jstr "xyz(\\d+)")] emptyState
      = (.error (.dataImport
          "Cannot extract value from string ABC-123 with pattern xyz(\\d+)"),
         emptyState)) ∧
    (getFieldValue (fun _ st => (.error .fuelExhausted, st)) regexEnv
        [("origin_id", .jstr "ABC-123")] "origin_id"
        [("data_type", .jstr "regex"), ("pattern", .jstr "\\w+-(\\d+)")] emptyState
      = (.ok (.json (.jstr "123")), emptyState)) := by
  have h1 := (c7_regex_field_resolution (fun _ st => (.error .fuelExhausted, st)) regexEnv
    [("origin_id", .jstr "ABC-123")] "origin_id" [("data_type", .jstr "regex")]
    emptyState "ABC-123" (by decide) (by decide) (by decide) (by decide) (by decide)
    (by decide) (by decide)).1 (Or.inl (by decide)) (by decide)
  have h2 := (c7_regex_field_resolution (fun _ st => (.error .fuelExhausted, st)) regexEnv
    [("origin_id", .jstr "ABC-123")] "origin_id"
    [("data_type", .jstr "regex"), ("pattern", .jstr "xyz(\\d+)")]
    emptyState "ABC-123" (by decide) (by decide) (by decide) (by decide) (by decide)
    (by decide) (by decide)).2.1 "xyz(\\d+)" (by decide) (by decide) (by decide)
  have h3 := (c7_regex_field_resolution (fun _ st => (.error .fuelExhausted, st)) regexEnv
    [("origin_id", .jstr "ABC-123")] "origin_id"
    [("data_type", .jstr "regex"), ("pattern", .jstr "\\w+-(\\d+)")]
    emptyState "ABC-123" (by decide) (by decide) (by decide) (by decide) (by decide)
    (by decide) (by decide)).2.2 "\\w+-(\\d+)" "123" (by decide) (by decide) (by decide)
  exact ⟨h1, h2, h3⟩

/-- The field loop distributes over list append. -/
theorem resolveFieldsLoop_append (gfv : String → FieldCfg → ImpState → Res RVal)
    (env : Env) (fs1 fs2 : List String) :
    ∀ (acc : List (String × RVal)) (s : ImpState),
      resolveFieldsLoop gfv env (fs1 ++ fs2) acc s =
        (match resolveFieldsLoop gfv env fs1 acc s with
         | (.ok acc', s') => resolveFieldsLoop gfv env fs2 acc' s'
         | (.error e, s') => (.error e, s')) := by
  induction fs1 with
  | nil => intro acc s; simp [resolveFieldsLoop]
  | cons f fs ih =>
    intro acc s
    simp only [List.cons_append, resolveFieldsLoop]
    cases gfv f ((alget env.field_config f).getD []) s with
    | mk r s' =>
      cases r with
      | ok v => exact ih (alset acc f v) s'
      | error e =>
        cases e with
        | dataImport m =>
          by_cases ho : cfgOptional ((alget env.field_config f).getD []) = true
          · simp only [ho, if_true]
            exact ih acc s'
          · simp [ho]
        | doesNotExist => rfl
        | pyErr m => rfl
        | fuelExhausted => rfl

/-- Importing a non-dict value as an organization fails immediately with
"Organization data must be dict." and leaves the state untouched. -/
theorem importOrg_not_dict (env : Env) (fuel : Nat) (s : ImpState) (data : JValue)
    (h : ∀ kvs, data ≠ .jdict kvs) :
    importOrganization env (fuel + 1) data s =
      (.error (.dataImport "Organization data must be dict."), s) := by
  rw [importOrganization]
  unfold atomicRun importOrganizationBody
  cases data with
  | jdict kvs => exact absurd rfl (h kvs)
  | jnull => rfl
  | jbool b => rfl
  | jnum n => rfl
  | jstr str => rfl
  | jlist xs => rfl

/-- Claim C10: a parent field with data_type org_id whose looked-up
identifier is absent from the run's raw-record index resolves to null
rather than an error; the related-entity import of the parent then gets
None, which is not a dict, so resolution of the parent field fails with
"Organization data must be dict."; inside the creation field loop, that
failure is skipped exactly when the parent field is marked optional, and
aborts the creation otherwise. -/
theorem c10_parent_org_id_miss (env : Env) (fuel : Nat)
    (rec : List (String × JValue)) (cfg : FieldCfg) (s : ImpState) (w : String)
    (hsrc : alget rec (cfgSourceField cfg "parent") = some (.jstr w))
    (hv : w ≠ "")
    (hw : cfgUnwrapList cfg = false) (hq : cfgUnquote cfg = false) :
    (parseDataType cfg = .ok .orgId → alget env.dataDict (.jstr w) = none →
      resolveRaw env rec "parent" cfg = .ok (.trans .jnull)) ∧
    (resolveRaw env rec "parent" cfg = .ok (.trans .jnull) →
      getFieldValue (importOrganization env (fuel + 1)) env rec "parent" cfg s =
        (.error (.dataImport "Organization data must be dict."), s)) ∧
    (∀ (fs1 fs2 : List String) (acc od1 : List (String × RVal)) (s0 s1 : ImpState),
      resolveRaw env rec "parent" cfg = .ok (.trans .jnull) →
      alget env.field_config "parent" = some cfg →
      resolveFieldsLoop (getFieldValue (importOrganization env (fuel + 1)) env rec) env
          fs1 acc s0 = (.ok od1, s1) →
      cfgOptional cfg = true →
      resolveFieldsLoop (getFieldValue (importOrganization env (fuel + 1)) env rec) env
          (fs1 ++ "parent" :: fs2) acc s0 =
        resolveFieldsLoop (getFieldValue (importOrganization env (fuel + 1)) env rec) env
          fs2 od1 s1) ∧
    (∀ (fs1 fs2 : List String) (okey dsv : RVal) (od1 : List (String × RVal))
        (s0 s1 : ImpState),
      resolveRaw env rec "parent" cfg = .ok (.trans .jnull) →
      alget env.field_config "parent" = some cfg →
      env.fields = fs1 ++ "parent" :: fs2 →
      resolveFieldsLoop (getFieldValue (importOrganization env (fuel + 1)) env rec) env
          fs1 [("origin_id", okey), ("data_source", dsv)] s0 = (.ok od1, s1) →
      cfgOptional cfg = false →
      importOrganizationCreate (getFieldValue (importOrganization env (fuel + 1)) env rec)
          env okey dsv s0 =
        (.error (.dataImport "Organization data must be dict."), s1)) := by
  have hnull : ∀ st : ImpState,
      getFieldValue (importOrganization env (fuel + 1)) env rec "parent" cfg st =
        (match resolveRaw env rec "parent" cfg with
         | .error e => (.error e, st)
         | .ok (.early v) => (.ok (.json v), st)
         | .ok (.trans v) =>
           if "parent" = "data_source" then
             (match importDataSource env v st with
              | (.ok i, s') => (.ok (.ds i), s')
              | (.error e, s') => (.error e, s'))
           else if "parent" = "classification" then
             (match importOrganizationClass env v st with
              | (.ok i, s') => (.ok (.cls i), s')
              | (.error e, s') => (.error e, s'))
           else if "parent" = "parent" then
             (match importOrganization env (fuel + 1) v st with
              | (.ok o, s') => (.ok (.org o), s')
              | (.error e, s') => (.error e, s'))
           else (.ok (.json v), st)) := fun st => rfl
  have hfail : resolveRaw env rec "parent" cfg = .ok (.trans .jnull) →
      ∀ st : ImpState,
        getFieldValue (importOrganization env (fuel + 1)) env rec "parent" cfg st =
          (.error (.dataImport "Organization data must be dict."), st) := by
    intro hraw st
    rw [hnull st, hraw]
    have hd := importOrg_not_dict env fuel st .jnull (fun kvs h => JValue.noConfusion h)
    simp only [reduceIte, hd]
    rw [if_neg (by decide), if_neg (by decide)]
  refine ⟨?_, ?_, ?_, ?_⟩
  · intro hdt hmiss
    rw [resolveRaw_strval env rec "parent" cfg w hsrc hv hw hq .orgId hdt]
    simp [hmiss]
  · intro hraw
    exact hfail hraw s
  · intro fs1 fs2 acc od1 s0 s1 hraw hfc hpre hopt
    have hloop2 : resolveFieldsLoop
        (getFieldValue (importOrganization env (fuel + 1)) env rec) env
        ("parent" :: fs2) od1 s1 =
        resolveFieldsLoop (getFieldValue (importOrganization env (fuel + 1)) env rec)
          env fs2 od1 s1 := by
      rw [resolveFieldsLoop]
      simp [hfc, hfail hraw s1, hopt]
    rw [resolveFieldsLoop_append, hpre]
    exact hloop2
  · intro fs1 fs2 okey dsv od1 s0 s1 hraw hfc hfields hpre hopt
    have hloop2 : resolveFieldsLoop
        (getFieldValue (importOrganization env (fuel + 1)) env rec) env
        ("parent" :: fs2) od1 s1 =
        (.error (.dataImport "Organization data must be dict."), s1) := by
      rw [resolveFieldsLoop]
      simp [hfc, hfail hraw s1, hopt]
    unfold importOrganizationCreate
    rw [hfields, resolveFieldsLoop_append, hpre]
    simp only [hloop2]

/-- Environment with an optional org_id parent field and an empty
raw-record index. -/
def orgIdEnv : Env :=
  { sampleEnv with
    fields := ["origin_id", "parent"]
    update_fields := []
    field_config := [("parent", [("data_type", .jstr "org_id"), ("optional", .jbool true)])]
    dataDict := [] }

/-- Same, but the parent field is not marked optional. -/
def orgIdEnvStrict : Env :=
  { orgIdEnv with field_config := [("parent", [("data_type", .jstr "org_id")])] }

/-- Witness for C10 on a record whose parent id "p9" is not in the
raw-record index: the parent field resolution raises "Organization data
must be dict."; the creation field loop skips the field when it is
optional; a non-optional parent aborts the creation with that error. -/
theorem c10_parent_org_id_miss_witness :
    (getFieldValue (importOrganization orgIdEnv 1) orgIdEnv
        [("origin_id", .jstr "o1"), ("parent", .jstr "p9")] "parent"
        [("data_type", .jstr "org_id"), ("optional", .jbool true)] emptyState
      = (.error (.dataImport "Organization data must be dict."), emptyState)) ∧
    (resolveFieldsLoop
        (getFieldValue (importOrganization orgIdEnv 1) orgIdEnv
          [("origin_id", .jstr "o1"), ("parent", .jstr "p9")]) orgIdEnv
        ["origin_id", "parent"] [] emptyState
      = resolveFieldsLoop
          (getFieldValue (importOrganization orgIdEnv 1) orgIdEnv
            [("origin_id", .jstr "o1"), ("parent", .jstr "p9")]) orgIdEnv
          [] [("origin_id", .json (.jstr "o1"))] emptyState) ∧
    (importOrganizationCreate
        (getFieldValue (importOrganization orgIdEnvStrict 1) orgIdEnvStrict
          [("origin_id", .jstr "o1"), ("parent", .jstr "p9")]) orgIdEnvStrict
        (.json (.jstr "o1")) (.ds "ds1") emptyState
      = (.error (.dataImport "Organization data must be dict."), emptyState)) := by
  refine ⟨?_, ?_, ?_⟩
  · exact (c10_parent_org_id_miss orgIdEnv 0
      [("origin_id", .jstr "o1"), ("parent", .jstr "p9")]
      [("data_type", .jstr "org_id"), ("optional", .jbool true)] emptyState "p9"
      (by decide) (by decide) (by decide) (by decide)).2.1 (by decide)
  · exact (c10_parent_org_id_miss orgIdEnv 0
      [("origin_id", .jstr "o1"), ("parent", .jstr "p9")]
      [("data_type", .jstr "org_id"), ("optional", .jbool true)] emptyState "p9"
      (by decide) (by decide) (by decide) (by decide)).2.2.1
      ["origin_id"] [] [] [("origin_id", .json (.jstr "o1"))] emptyState emptyState
      (by decide) (by decide) (by decide) (by decide)
  · exact (c10_parent_org_id_miss orgIdEnvStrict 0
      [("origin_id", .jstr "o1"), ("parent", .jstr "p9")]
      [("data_type", .jstr "org_id")] emptyState "p9"
      (by decide) (by decide) (by decide) (by decide)).2.2.2
      ["origin_id"] [] (.json (.jstr "o1")) (.ds "ds1")
      [("origin_id", .json (.jstr "o1")), ("data_source", .ds "ds1")] emptyState emptyState
      (by decide) (by decide) (by decide) (by decide) (by decide)

/-- The state repair done by @transaction.atomic when its body ends in a
given result: database tables roll back on an error, caches persist. -/
def atomicResult {α : Type} (s : ImpState) (r : Res α) : Res α :=
  match r with
  | (.ok a, s') => (.ok a, s')
  | (.error e, s') =>
    (.error e, { s' with orgs := s.orgs, classes := s.classes, sources := s.sources })

/-- Claim C9, amended: during identity resolution, when resolving the
data_source field fails with DataImportError, the import propagates the
failure (rolling the record's transaction back) exactly when the field
has a non-empty configuration that does not mark it optional; when the
configuration is absent/empty or marks the field optional, the import
falls back to the configured default data source (resolved by
resolveDefaultDataSource) and proceeds with update-or-create on it. -/
theorem c9_data_source_resolution (env : Env) (fuel : Nat)
    (kvs : List (String × JValue)) (s s1 s2 : ImpState) (originKey : RVal) (m : String)
    (hres : getFieldValue (importOrganization env fuel) env kvs "origin_id"
        ((alget env.field_config "origin_id").getD []) s = (.ok originKey, s1))
    (hmiss : alget s1.orgCache originKey = none)
    (hfail : getFieldValue (importOrganization env fuel) env kvs "data_source"
        ((alget env.field_config "data_source").getD []) s1 = (.error (.dataImport m), s2)) :
    ((((alget env.field_config "data_source").getD ([] : FieldCfg)).isEmpty = false) →
      cfgOptional ((alget env.field_config "data_source").getD []) = false →
      importOrganization env (fuel + 1) (.jdict kvs) s =
        (.error (.dataImport m),
         { s2 with orgs := s.orgs, classes := s.classes, sources := s.sources })) ∧
    (∀ (dsv2 : RVal) (s3 : ImpState),
      ((((alget env.field_config "data_source").getD ([] : FieldCfg)).isEmpty = true) ∨
        cfgOptional ((alget env.field_config "data_source").getD []) = true) →
      resolveDefaultDataSource (importOrganization env fuel) env s2 = (.ok dsv2, s3) →
      importOrganization env (fuel + 1) (.jdict kvs) s =
        atomicResult s (importOrganizationTail
          (getFieldValue (importOrganization env fuel) env kvs) env originKey dsv2 s3)) := by
  constructor
  · intro hne hopt
    rw [importOrganization]
    unfold atomicRun
    simp only [importOrganizationBody, hres, hmiss, hfail, hne, hopt, Bool.or_self,
      Bool.false_eq_true, if_false]
  · intro dsv2 s3 hor hdef
    rw [importOrganization]
    unfold atomicRun
    rcases hor with hor | hor
    · simp only [importOrganizationBody, hres, hmiss, hfail, hor, Bool.true_or, if_true, hdef]
      unfold atomicResult
      rfl
    · simp only [importOrganizationBody, hres, hmiss, hfail, hor, Bool.or_true, if_true, hdef]
      unfold atomicResult
      rfl

/-- Environment whose data_source field config is present but an empty
dict (which marks nothing optional). -/
def c9Env : Env :=
  { sampleEnv with
    fields := ["origin_id"]
    update_fields := []
    field_config := [("data_source", [])] }

/-- Claim C9, counterexample: the data_source field's configuration (an
empty dict) does not mark it optional, resolution of the field fails on
this record (no data_source key), and yet the import succeeds with the
default data source instead of propagating the failure: Python's `not
config` branch swallows the error for an absent or empty config. -/
theorem c9_counterexample :
    cfgOptional ([] : FieldCfg) = false ∧
    (getFieldValue (importOrganization c9Env 1) c9Env [("origin_id", .jstr "o1")]
        "data_source" [] emptyState).1
      = .error (.dataImport "Field not found in source data: data_source") ∧
    (importOrganization c9Env 2 (.jdict [("origin_id", .jstr "o1")]) emptyState).1
      = .ok (some "ds1:o1") :=
  ⟨by decide, by decide, by decide⟩

/-- Environment whose data_source field config is non-empty (a
source_field remap) and not optional. -/
def c9EnvStrict : Env :=
  { sampleEnv with
    fields := ["origin_id"]
    update_fields := []
    field_config := [("data_source", [("source_field", .jstr "src")])] }

/-- Witness for C9: with a non-empty, non-optional data_source config
whose source key "src" is missing from the record, the import fails
with the resolution error. -/
theorem c9_data_source_resolution_witness :
    importOrganization c9EnvStrict 2 (.jdict [("origin_id", .jstr "o1")]) emptyState
      = (.error (.dataImport "Field not found in source data: src"), emptyState) := by
  have h := (c9_data_source_resolution c9EnvStrict 1 [("origin_id", .jstr "o1")]
    emptyState emptyState emptyState (.json (.jstr "o1"))
    "Field not found in source data: src"
    (by decide) (by decide) (by decide)).1 (by decide) (by decide)
  exact h

/-- Claim C4: when the create path's resolved classification is a class
whose stored origin_id is on the configured skip list, the import stores
no organization for this record (the create step adds no row beyond the
field-resolution side effects), returns null, and caches a null entry
under the resolved origin_id; any later import in the same run that
resolves to this origin_id returns null straight from the cache with the
whole state (including the classification-resolution counter)
unchanged. -/
theorem c4_skip_classification (env : Env) (fuel : Nat) (kvs : List (String × JValue))
    (s s1 s2 s3 s4 : ImpState) (originKey dsv : RVal) (od : List (String × RVal))
    (cid : String)
    (hres : getFieldValue (importOrganization env fuel) env kvs "origin_id"
        ((alget env.field_config "origin_id").getD []) s = (.ok originKey, s1))
    (hmiss : alget s1.orgCache originKey = none)
    (hds : getFieldValue (importOrganization env fuel) env kvs "data_source"
        ((alget env.field_config "data_source").getD []) s1 = (.ok dsv, s2))
    (hdsv : dsv.truthy = true)
    (hupd : importOrganizationUpdate (getFieldValue (importOrganization env fuel) env kvs)
        env originKey dsv s2 = (.error .doesNotExist, s3))
    (hloop : resolveFieldsLoop (getFieldValue (importOrganization env fuel) env kvs) env
        env.fields [("origin_id", originKey), ("data_source", dsv)] s3 = (.ok od, s4))
    (hcls : alget od "classification" = some (.cls cid))
    (hskip : env.skip_classifications.contains (clsOriginId s4.classes cid) = true) :
    (importOrganization env (fuel + 1) (.jdict kvs) s =
      (.ok none, { s4 with orgCache := alset s4.orgCache originKey none })) ∧
    (({ s4 with orgCache := alset s4.orgCache originKey none } : ImpState).orgs = s4.orgs) ∧
    (alget (alset s4.orgCache originKey none) originKey = some none) ∧
    (∀ (fuel2 : Nat) (kvs2 : List (String × JValue)),
      getFieldValue (importOrganization env fuel2) env kvs2 "origin_id"
          ((alget env.field_config "origin_id").getD [])
          { s4 with orgCache := alset s4.orgCache originKey none } =
        (.ok originKey, { s4 with orgCache := alset s4.orgCache originKey none }) →
      importOrganization env (fuel2 + 1) (.jdict kvs2)
          { s4 with orgCache := alset s4.orgCache originKey none } =
        (.ok none, { s4 with orgCache := alset s4.orgCache originKey none })) := by
  have hget : alget (alset s4.orgCache originKey (none : Option String)) originKey
      = some none := by
    rw [alget_alset]
    simp
  refine ⟨?_, rfl, hget, ?_⟩
  · rw [importOrganization]
    unfold atomicRun
    simp only [importOrganizationBody, hres, hmiss, hds, hdsv, if_true]
    unfold importOrganizationTail importOrganizationCreate
    simp only [hupd, hloop, skipHit, hcls, hskip, if_true]
  · intro fuel2 kvs2 hres2
    exact importOrg_cache_hit env fuel2 kvs2 _ originKey none hres2 hget

/-- Environment that skips organizations classified "skipme". -/
def skipEnv : Env :=
  { sampleEnv with
    fields := ["origin_id", "classification"]
    update_fields := []
    skip_classifications := ["skipme"] }

/-- Witness for C4: importing a record whose classification resolves to
the skipped class "skipme" stores no organization row, returns null and
caches null under origin "o1"; only the side entities (the record's
data source, the default data source and the classification row itself)
were created, and the classification was resolved exactly once. -/
theorem c4_skip_classification_witness :
    importOrganization skipEnv 3
      (.jdict [("origin_id", .jstr "o1"), ("classification", .jstr "skipme"),
               ("data_source", .jstr "src1")]) emptyState =
      (.ok none,
       { orgs := []
         classes := [{ id := "ds1:skipme", data_source := some "ds1",
                       origin_id := "skipme", name := "ds1:skipme" }]
         sources := [{ id := "src1" }, { id := "ds1" }]
         orgCache := [(.json (.jstr "o1"), none)]
         clsCache := [(some (.jstr "skipme"), "ds1:skipme")]
         dsCache := [(.jstr "src1", "src1"), (.jstr "ds1", "ds1")]
         defaultParent := none
         clsResolutions := 1 }) := by
  have h := (c4_skip_classification skipEnv 2
    [("origin_id", .jstr "o1"), ("classification", .jstr "skipme"),
     ("data_source", .jstr "src1")]
    emptyState emptyState
    { emptyState with sources := [{ id := "src1" }], dsCache := [(.jstr "src1", "src1")] }
    { emptyState with sources := [{ id := "src1" }], dsCache := [(.jstr "src1", "src1")] }
    { orgs := []
      classes := [{ id := "ds1:skipme", data_source := some "ds1",
                    origin_id := "skipme", name := "ds1:skipme" }]
      sources := [{ id := "src1" }, { id := "ds1" }]
      orgCache := []
      clsCache := [(some (.jstr "skipme"), "ds1:skipme")]
      dsCache := [(.jstr "src1", "src1"), (.jstr "ds1", "ds1")]
      defaultParent := none
      clsResolutions := 1 }
    (.json (.jstr "o1")) (.ds "src1")
    [("origin_id", .json (.jstr "o1")), ("data_source", .ds "src1"),
     ("classification", .cls "ds1:skipme")]
    "ds1:skipme"
    (by decide) (by decide) (by decide) (by decide) (by decide) (by decide)
    (by decide) (by decide)).1
  exact h


/-- A non-relational field whose pure resolution yields a transformed
value resolves to that value in any state, leaving the state alone. -/
theorem getFieldValue_nonrel_trans (impOrg : JValue → ImpState → Res (Option String))
    (env : Env) (rec : List (String × JValue)) (field : String) (cfg : FieldCfg)
    (v : JValue)
    (h1 : field ≠ "data_source") (h2 : field ≠ "classification") (h3 : field ≠ "parent")
    (hraw : resolveRaw env rec field cfg = .ok (.trans v)) :
    ∀ st : ImpState, getFieldValue impOrg env rec field cfg st = (.ok (.json v), st) := by
  intro st
  rw [getFieldValue_nonrel _ _ _ _ _ _ h1 h2 h3, hraw]

/-- A fresh importer run over the same database: __init__ (lines 270-273)
starts with empty caches, no imported default parent and a zero
classification-resolution count. -/
def freshRun (s : ImpState) : ImpState :=
  { orgs := s.orgs, classes := s.classes, sources := s.sources,
    orgCache := [], clsCache := [], dsCache := [], defaultParent := none,
    clsResolutions := 0 }

/-- The row created by importing a record with origin o and name n under
sampleEnv (whose default data source is "ds1"). -/
def c3Row (o n : String) : OrgRow :=
  { id := compositeId (some "ds1") o, data_source := some "ds1", origin_id := o,
    attrs := [("name", .json (.jstr n))] }

/-- The state of a run right after the default data source "ds1" has
been created or fetched, starting from base tables. -/
def c3Mid (base : ImpState) : ImpState :=
  { base with
    sources := if (base.sources.map DSRow.id).contains "ds1" then base.sources
      else base.sources ++ [{ id := "ds1" }],
    dsCache := [(.jstr "ds1", "ds1")] }

/-- The run state after importing such a record into an empty store. -/
def c3State (o n : String) : ImpState :=
  { orgs := [c3Row o n], classes := [], sources := [{ id := "ds1" }],
    orgCache := [(.json (.jstr o), some (compositeId (some "ds1") o))],
    clsCache := [], dsCache := [(.jstr "ds1", "ds1")], defaultParent := none,
    clsResolutions := 0 }

/-- Claim C3: importing a record (origin o, name n1) into an empty store
creates exactly one organization row with pk "ds1:o"; importing a record
with the same origin up to case (lowerStr o2 = lowerStr o) and a name n2
in a fresh run over the resulting database matches the stored row
case-insensitively, updates only the update_fields (here: name), keeps
the originally-stored origin_id o and the pk, and stores no second row.
The claim's "same raw record twice" is the special case o2 = o,
n2 = n1. -/
theorem c3_reimport_idempotent (o o2 n1 n2 : String)
    (ho : o ≠ "") (ho2 : o2 ≠ "") (hn1 : n1 ≠ "") (hn2 : n2 ≠ "")
    (hlow : lowerStr o2 = lowerStr o) :
    (importOrganization sampleEnv 2
        (.jdict [("origin_id", .jstr o), ("name", .jstr n1)]) emptyState
      = (.ok (some (compositeId (some "ds1") o)), c3State o n1)) ∧
    (importOrganization sampleEnv 2
        (.jdict [("origin_id", .jstr o2), ("name", .jstr n2)]) (freshRun (c3State o n1))
      = (.ok (some (compositeId (some "ds1") o)), c3State o n2)) ∧
    ((c3State o n2).orgs.length = 1) ∧
    ((c3State o n2).orgs.map OrgRow.origin_id = [o]) ∧
    ((c3State o n2).orgs.map OrgRow.id = (c3State o n1).orgs.map OrgRow.id) ∧
    (c3Row o n2 =
      { c3Row o n1 with attrs := alset (c3Row o n1).attrs "name" (.json (.jstr n2)) }) := by
  have h_o1 : ∀ st : ImpState, getFieldValue (importOrganization sampleEnv 1) sampleEnv
      [("origin_id", .jstr o), ("name", .jstr n1)] "origin_id"
      ((alget sampleEnv.field_config "origin_id").getD []) st
      = (.ok (.json (.jstr o)), st) := by
    refine getFieldValue_nonrel_trans _ _ _ _ _ _ (by decide) (by decide) (by decide) ?_
    rw [resolveRaw_strval sampleEnv [("origin_id", .jstr o), ("name", .jstr n1)]
      "origin_id" ((alget sampleEnv.field_config "origin_id").getD []) o rfl ho rfl rfl
      .value rfl]
    rfl
  have h_o2 : ∀ st : ImpState, getFieldValue (importOrganization sampleEnv 1) sampleEnv
      [("origin_id", .jstr o2), ("name", .jstr n2)] "origin_id"
      ((alget sampleEnv.field_config "origin_id").getD []) st
      = (.ok (.json (.jstr o2)), st) := by
    refine getFieldValue_nonrel_trans _ _ _ _ _ _ (by decide) (by decide) (by decide) ?_
    rw [resolveRaw_strval sampleEnv [("origin_id", .jstr o2), ("name", .jstr n2)]
      "origin_id" ((alget sampleEnv.field_config "origin_id").getD []) o2 rfl ho2 rfl rfl
      .value rfl]
    rfl
  have h_n1 : ∀ st : ImpState, getFieldValue (importOrganization sampleEnv 1) sampleEnv
      [("origin_id", .jstr o), ("name", .jstr n1)] "name"
      ((alget sampleEnv.field_config "name").getD []) st
      = (.ok (.json (.jstr n1)), st) := by
    refine getFieldValue_nonrel_trans _ _ _ _ _ _ (by decide) (by decide) (by decide) ?_
    rw [resolveRaw_strval sampleEnv [("origin_id", .jstr o), ("name", .jstr n1)]
      "name" ((alget sampleEnv.field_config "name").getD []) n1 rfl hn1 rfl rfl
      .value rfl]
    rfl
  have h_n2 : ∀ st : ImpState, getFieldValue (importOrganization sampleEnv 1) sampleEnv
      [("origin_id", .jstr o2), ("name", .jstr n2)] "name"
      ((alget sampleEnv.field_config "name").getD []) st
      = (.ok (.json (.jstr n2)), st) := by
    refine getFieldValue_nonrel_trans _ _ _ _ _ _ (by decide) (by decide) (by decide) ?_
    rw [resolveRaw_strval sampleEnv [("origin_id", .jstr o2), ("name", .jstr n2)]
      "name" ((alget sampleEnv.field_config "name").getD []) n2 rfl hn2 rfl rfl
      .value rfl]
    rfl
  have h_ds1 : ∀ st : ImpState, getFieldValue (importOrganization sampleEnv 1) sampleEnv
      [("origin_id", .jstr o), ("name", .jstr n1)] "data_source"
      ((alget sampleEnv.field_config "data_source").getD []) st
      = (.error (.dataImport "Field not found in source data: data_source"), st) :=
    fun _ => rfl
  have h_ds2 : ∀ st : ImpState, getFieldValue (importOrganization sampleEnv 1) sampleEnv
      [("origin_id", .jstr o2), ("name", .jstr n2)] "data_source"
      ((alget sampleEnv.field_config "data_source").getD []) st
      = (.error (.dataImport "Field not found in source data: data_source"), st) :=
    fun _ => rfl
  refine ⟨?_, ?_, rfl, rfl, rfl, rfl⟩
  · -- run 1
    have h_uloop : resolveFieldsLoop (getFieldValue (importOrganization sampleEnv 1)
        sampleEnv [("origin_id", .jstr o), ("name", .jstr n1)]) sampleEnv
        sampleEnv.update_fields [] (c3Mid emptyState)
        = (.ok [("name", .json (.jstr n1))], c3Mid emptyState) := by
      rw [show sampleEnv.update_fields = ["name"] from rfl, resolveFieldsLoop]
      simp only [h_n1]
      rfl
    have h_cloop : resolveFieldsLoop (getFieldValue (importOrganization sampleEnv 1)
        sampleEnv [("origin_id", .jstr o), ("name", .jstr n1)]) sampleEnv
        sampleEnv.fields [("origin_id", .json (.jstr o)), ("data_source", .ds "ds1")]
        (c3Mid emptyState)
        = (.ok [("origin_id", .json (.jstr o)), ("data_source", .ds "ds1"),
                ("name", .json (.jstr n1))], c3Mid emptyState) := by
      rw [show sampleEnv.fields = ["origin_id", "name"] from rfl, resolveFieldsLoop]
      simp only [h_o1]
      rw [resolveFieldsLoop]
      simp only [h_n1]
      rfl
    have h_upd : importOrganizationUpdate (getFieldValue (importOrganization sampleEnv 1)
        sampleEnv [("origin_id", .jstr o), ("name", .jstr n1)]) sampleEnv
        (.json (.jstr o)) (.ds "ds1") (c3Mid emptyState)
        = (.error .doesNotExist, c3Mid emptyState) := by
      unfold importOrganizationUpdate
      simp only [h_uloop]
      rfl
    have h_create : importOrganizationCreate (getFieldValue (importOrganization sampleEnv 1)
        sampleEnv [("origin_id", .jstr o), ("name", .jstr n1)]) sampleEnv
        (.json (.jstr o)) (.ds "ds1") (c3Mid emptyState)
        = (.ok (some (compositeId (some "ds1") o)), c3State o n1) := by
      unfold importOrganizationCreate
      simp only [h_cloop]
      rfl
    have h_tail : importOrganizationTail (getFieldValue (importOrganization sampleEnv 1)
        sampleEnv [("origin_id", .jstr o), ("name", .jstr n1)]) sampleEnv
        (.json (.jstr o)) (.ds "ds1") (c3Mid emptyState)
        = (.ok (some (compositeId (some "ds1") o)), c3State o n1) := by
      unfold importOrganizationTail
      simp only [h_upd, h_create]
    show atomicRun (importOrganizationBody (importOrganization sampleEnv 1) sampleEnv
      (.jdict [("origin_id", .jstr o), ("name", .jstr n1)])) emptyState = _
    unfold atomicRun
    simp only [importOrganizationBody, h_o1, h_ds1]
    rw [show alget emptyState.orgCache (.json (.jstr o)) = (none : Option (Option String))
      from rfl]
    rw [show (((alget sampleEnv.field_config "data_source").getD ([] : FieldCfg)).isEmpty
      || cfgOptional ((alget sampleEnv.field_config "data_source").getD [])) = true from rfl]
    rw [show resolveDefaultDataSource (importOrganization sampleEnv 1) sampleEnv emptyState
      = (.ok (.ds "ds1"), c3Mid emptyState) from rfl]
    simp only [if_true, h_tail]
  · -- run 2
    have h_uloop : resolveFieldsLoop (getFieldValue (importOrganization sampleEnv 1)
        sampleEnv [("origin_id", .jstr o2), ("name", .jstr n2)]) sampleEnv
        sampleEnv.update_fields [] (c3Mid (freshRun (c3State o n1)))
        = (.ok [("name", .json (.jstr n2))], c3Mid (freshRun (c3State o n1))) := by
      rw [show sampleEnv.update_fields = ["name"] from rfl, resolveFieldsLoop]
      simp only [h_n2]
      rfl
    have h_find : dbGetOrg (c3Mid (freshRun (c3State o n1))).orgs
        (RVal.pyStr (.json (.jstr o2))) (RVal.dsKey (.ds "ds1")) = some (c3Row o n1) := by
      show dbGetOrg [c3Row o n1] (RVal.pyStr (.json (.jstr o2))) (some "ds1")
        = some (c3Row o n1)
      unfold dbGetOrg
      rw [List.find?]
      simp [c3Row, RVal.pyStr, JValue.pyStr, hlow]
    have h_upd : importOrganizationUpdate (getFieldValue (importOrganization sampleEnv 1)
        sampleEnv [("origin_id", .jstr o2), ("name", .jstr n2)]) sampleEnv
        (.json (.jstr o2)) (.ds "ds1") (c3Mid (freshRun (c3State o n1)))
        = (.ok (some (compositeId (some "ds1") o)), c3State o n2) := by
      unfold importOrganizationUpdate
      simp only [h_uloop, h_find]
      rw [show dpoSet sampleEnv = false from rfl]
      simp only [Bool.false_and, Bool.false_eq_true, if_false]
      rw [show List.foldl (fun r kv => orgSetField r kv.1 kv.2) (c3Row o n1)
        [("name", RVal.json (.jstr n2))] = c3Row o n2 from rfl]
      rw [show dbReplaceOrg (c3Mid (freshRun (c3State o n1))).orgs (c3Row o n2)
        = [c3Row o n2] by
        show dbReplaceOrg [c3Row o n1] (c3Row o n2) = [c3Row o n2]
        unfold dbReplaceOrg c3Row
        simp]
      rfl
    have h_tail : importOrganizationTail (getFieldValue (importOrganization sampleEnv 1)
        sampleEnv [("origin_id", .jstr o2), ("name", .jstr n2)]) sampleEnv
        (.json (.jstr o2)) (.ds "ds1") (c3Mid (freshRun (c3State o n1)))
        = (.ok (some (compositeId (some "ds1") o)), c3State o n2) := by
      unfold importOrganizationTail
      simp only [h_upd]
    show atomicRun (importOrganizationBody (importOrganization sampleEnv 1) sampleEnv
      (.jdict [("origin_id", .jstr o2), ("name", .jstr n2)])) (freshRun (c3State o n1)) = _
    unfold atomicRun
    simp only [importOrganizationBody, h_o2, h_ds2]
    rw [show alget (freshRun (c3State o n1)).orgCache (.json (.jstr o2))
      = (none : Option (Option String)) from rfl]
    rw [show (((alget sampleEnv.field_config "data_source").getD ([] : FieldCfg)).isEmpty
      || cfgOptional ((alget sampleEnv.field_config "data_source").getD [])) = true from rfl]
    rw [show resolveDefaultDataSource (importOrganization sampleEnv 1) sampleEnv
        (freshRun (c3State o n1))
      = (.ok (.ds "ds1"), c3Mid (freshRun (c3State o n1))) from rfl]
    simp only [if_true, h_tail]

/-- Witness for C3: importing origin "Org1" with name "name one" into an
empty store creates the single row "ds1:Org1"; re-importing in a fresh
run with the origin spelled "ORG1" and name "name two" matches that row
case-insensitively, rewrites only the name, and keeps the stored
origin_id "Org1" and pk "ds1:Org1". -/
theorem c3_reimport_idempotent_witness :
    (importOrganization sampleEnv 2
        (.jdict [("origin_id", .jstr "Org1"), ("name", .jstr "name one")]) emptyState
      = (.ok (some "ds1:Org1"), c3State "Org1" "name one")) ∧
    (importOrganization sampleEnv 2
        (.jdict [("origin_id", .jstr "ORG1"), ("name", .jstr "name two")])
        (freshRun (c3State "Org1" "name one"))
      = (.ok (some "ds1:Org1"), c3State "Org1" "name two")) := by
  have h := c3_reimport_idempotent "Org1" "ORG1" "name one" "name two"
    (by decide) (by decide) (by decide) (by decide) (by decide)
  exact ⟨h.1, h.2.1⟩
